import Mathlib

/-!
Verification of the `nitrogen` inference client
(`src/nitrogen/inference_client.py`).

The development shallowly embeds the `ModelClient` class: the wire values
that are pickled (`PAtom`, `PDict`), the serializer, the strict
request-reply channel (a zmq `REQ` socket), and the four raise sites of
the client, and proves the behavioural properties stated in the design
document about `predict`, `reset`, `info`, `close` and the context
manager.
-/

/-- A numpy image array of shape `(height, width, 3)` with `uint8`
samples, stored row-major as a flat pixel list. -/
structure NpImage where
  height : Nat
  width : Nat
  pixels : List Nat
deriving DecidableEq

/-- A valid H×W×3 RGB image: positive dimensions and 8-bit samples. -/
def NpImage.wellFormed (img : NpImage) : Prop :=
  0 < img.height ∧ 0 < img.width ∧
  img.pixels.length = img.height * img.width * 3 ∧
  ∀ p ∈ img.pixels, p < 256

instance (img : NpImage) : Decidable img.wellFormed := by
  unfold NpImage.wellFormed; infer_instance

/-- A Python value transported over the wire.  The client only ever
builds flat dictionaries whose values are strings or the image array;
payloads it merely transports (`pred`, `info` contents) are opaque to
it and are represented by an indexed opaque constructor. -/
inductive PAtom where
  | astr (s : String)
  | aimage (img : NpImage)
  | ablob (n : Nat)
deriving DecidableEq

/-- A Python dict with string keys, as built and consumed by the client. -/
abbrev PDict := List (String × PAtom)

/-- `d[k]` / `d.get(k)`: Python dict lookup (on duplicate keys the last
binding wins, as in a dict built by successive assignment). -/
def dictGet : PDict → String → Option PAtom
  | [], _ => none
  | (k, v) :: rest, key =>
    match dictGet rest key with
    | some r => some r
    | none => if k = key then some v else none

/-- `d.get(k, default)`: lookup with a default. -/
def dictGetD (d : PDict) (key : String) (dflt : PAtom) : PAtom :=
  (dictGet d key).getD dflt

/-! ### Serialization

Modelled from the spec: the original serializes with `pickle`, a
general-purpose object serializer external to this repository; the spec
allows "any schema-light binary format" provided it round-trips the
entity shapes faithfully, including dense H×W×3 byte arrays.  We use a
tag-and-length-prefixed byte encoding of `PDict`. -/

/-- Little-endian base-128 varint encoding of a natural number.  The
first argument is recursion fuel; `n` itself is always enough. -/
def encodeNatAux : Nat → Nat → List Nat
  | 0, n => [n % 128]
  | fuel + 1, n =>
    if n < 128 then [n] else (n % 128 + 128) :: encodeNatAux fuel (n / 128)

def encodeNat (n : Nat) : List Nat :=
  encodeNatAux n n

/-- Varint decoding; returns the value and the remaining bytes. -/
def decodeNat : List Nat → Option (Nat × List Nat)
  | [] => none
  | b :: rest =>
    if b < 128 then some (b, rest)
    else
      match decodeNat rest with
      | some (m, rest') => some (b - 128 + 128 * m, rest')
      | none => none

def encodeChars : List Char → List Nat
  | [] => []
  | c :: cs => encodeNat c.toNat ++ encodeChars cs

def decodeChars : Nat → List Nat → Option (List Char × List Nat)
  | 0, bs => some ([], bs)
  | k + 1, bs =>
    match decodeNat bs with
    | none => none
    | some (n, bs1) =>
      match decodeChars k bs1 with
      | none => none
      | some (cs, bs2) => some (Char.ofNat n :: cs, bs2)

def encodeString (s : String) : List Nat :=
  encodeNat s.data.length ++ encodeChars s.data

def decodeString (bs : List Nat) : Option (String × List Nat) :=
  match decodeNat bs with
  | none => none
  | some (k, bs1) =>
    match decodeChars k bs1 with
    | none => none
    | some (cs, bs2) => some (String.mk cs, bs2)

def encodePixels : List Nat → List Nat
  | [] => []
  | p :: ps => encodeNat p ++ encodePixels ps

def decodePixels : Nat → List Nat → Option (List Nat × List Nat)
  | 0, bs => some ([], bs)
  | k + 1, bs =>
    match decodeNat bs with
    | none => none
    | some (p, bs1) =>
      match decodePixels k bs1 with
      | none => none
      | some (ps, bs2) => some (p :: ps, bs2)

def encodeAtom : PAtom → List Nat
  | .astr s => 0 :: encodeString s
  | .aimage img =>
    1 :: (encodeNat img.height ++ encodeNat img.width ++
      encodeNat img.pixels.length ++ encodePixels img.pixels)
  | .ablob n => 2 :: encodeNat n

def decodeAtom : List Nat → Option (PAtom × List Nat)
  | [] => none
  | 0 :: bs =>
    match decodeString bs with
    | none => none
    | some (s, rest) => some (.astr s, rest)
  | 1 :: bs =>
    match decodeNat bs with
    | none => none
    | some (h, bs1) =>
      match decodeNat bs1 with
      | none => none
      | some (w, bs2) =>
        match decodeNat bs2 with
        | none => none
        | some (k, bs3) =>
          match decodePixels k bs3 with
          | none => none
          | some (ps, rest) => some (.aimage ⟨h, w, ps⟩, rest)
  | 2 :: bs =>
    match decodeNat bs with
    | none => none
    | some (n, rest) => some (.ablob n, rest)
  | _ :: _ => none

def encodeEntries : PDict → List Nat
  | [] => []
  | (k, v) :: rest => encodeString k ++ encodeAtom v ++ encodeEntries rest

def decodeEntries : Nat → List Nat → Option (PDict × List Nat)
  | 0, bs => some ([], bs)
  | n + 1, bs =>
    match decodeString bs with
    | none => none
    | some (k, bs1) =>
      match decodeAtom bs1 with
      | none => none
      | some (v, bs2) =>
        match decodeEntries n bs2 with
        | none => none
        | some (d, rest) => some ((k, v) :: d, rest)

/-- `pickle.dumps` on a request/response dict. -/
def dumps (d : PDict) : List Nat :=
  encodeNat d.length ++ encodeEntries d

/-- `pickle.loads`: total on well-formed encodings, `none` on bytes
that do not deserialize (the unpickling error case). -/
def loads (bs : List Nat) : Option PDict :=
  match decodeNat bs with
  | none => none
  | some (n, rest) =>
    match decodeEntries n rest with
    | some (d, []) => some d
    | _ => none

/-! ### Transport channel

Modelled from the spec: the channel is a zmq `REQ` socket, external to
this repository.  The spec's invariant: the transport itself enforces
strict alternation — "sending twice without an intervening receive, or
receiving without a prior send, is an invalid-use error" — and a receive
either returns reply bytes or times out after the configured bound. -/

/-- State of the strict request-reply socket. -/
inductive SocketState where
  | readyToSend
  | awaitingReply
  | closed
deriving DecidableEq

/-- Environment choice for one blocking receive: either a reply arrives
in time, or the receive bound elapses first. -/
inductive RecvOutcome where
  | timedOut
  | reply (bs : List Nat)
deriving DecidableEq

/-- The errors the client's raise sites can produce, one constructor per
distinct site/exception class:
`timeout` — the `RuntimeError` raised when `recv` raises `zmq.Again`,
carrying the configured bound in milliseconds;
`server` — the `RuntimeError` raised when `status != "ok"`, carrying
`response.get("message", "Unknown error")` verbatim;
`malformed` — the unpickling error propagating when the reply bytes do
not deserialize;
`keyError` — a `KeyError` from an unguarded dict subscript;
`efsm` — the transport's invalid-use error (send/receive out of turn);
`closedSocket` — using the socket after `close`. -/
inductive ClientError where
  | timeout (timeout_ms : Nat)
  | server (message : PAtom)
  | malformed
  | keyError (key : String)
  | efsm
  | closedSocket
deriving DecidableEq

/-- `socket.send(bytes)`: only legal when the socket is ready to send;
the strict-alternation transport rejects a second send before a receive. -/
def sockSend : SocketState → List Nat → Except ClientError SocketState
  | .readyToSend, _ => .ok .awaitingReply
  | .awaitingReply, _ => .error .efsm
  | .closed, _ => .error .closedSocket

/-- Result of `socket.recv()` under a receive bound. -/
inductive RecvResult where
  | again
  | data (bs : List Nat)
  | fsmError
  | closedError
deriving DecidableEq

/-- `socket.recv()`: returns the reply and moves the socket back to the
ready state, or raises `zmq.Again` when the bound elapses — in which
case the socket still awaits the abandoned reply. -/
def sockRecv : SocketState → RecvOutcome → RecvResult × SocketState
  | .awaitingReply, .timedOut => (.again, .awaitingReply)
  | .awaitingReply, .reply bs => (.data bs, .readyToSend)
  | .readyToSend, _ => (.fsmError, .readyToSend)
  | .closed, _ => (.closedError, .closed)

/-! ### The client (`ModelClient`) -/

/-- The client state: configuration fields set by `__init__` plus the
socket. -/
structure ModelClient where
  host : String
  port : Nat
  timeout_ms : Nat
  endpoint : String
  sock : SocketState
deriving DecidableEq

/-- Default for the `host` parameter of `__init__`. -/
def defaultHost : String := "localhost"

/-- Default for the `port` parameter of `__init__`. -/
def defaultPort : Nat := 5555

/-- `ModelClient.__init__`: stores `host`, `port` and the fixed
`timeout_ms = 30000`, connects the REQ socket to `tcp://host:port` and
sets the receive bound. -/
def ModelClient.init (host : String) (port : Nat) : ModelClient :=
  { host := host
    port := port
    timeout_ms := 30000
    endpoint := "tcp://" ++ host ++ ":" ++ toString port
    sock := .readyToSend }

/-- Rendering of the fractional part of `timeout_ms/1000` (Python float
division): three decimal digits, left zero-padded, trailing zeros
stripped. -/
def fracDigitsStr (frac : Nat) : String :=
  let padded :=
    (if frac < 10 then "00" else if frac < 100 then "0" else "") ++ toString frac
  String.mk ((padded.data.reverse.dropWhile (· = '0')).reverse)

/-- Python's rendering of the float `ms/1000` for values with at most
three decimal places, as interpolated into the timeout message. -/
def pySecondsStr (ms : Nat) : String :=
  if ms % 1000 = 0 then toString (ms / 1000) ++ ".0"
  else toString (ms / 1000) ++ "." ++ fracDigitsStr (ms % 1000)

/-- The message of the `RuntimeError` raised on a receive timeout. -/
def timeoutMessage (timeout_ms : Nat) : String :=
  "Connection to model server timed out after " ++ pySecondsStr timeout_ms ++
    "s. Is 'scripts/serve.py' running?"

/-- `request = {"type": "predict", "image": image}` -/
def predictRequest (image : NpImage) : PDict :=
  [("type", PAtom.astr "predict"), ("image", PAtom.aimage image)]

/-- `request = {"type": "reset"}` -/
def resetRequest : PDict :=
  [("type", PAtom.astr "reset")]

/-- `request = {"type": "info"}` -/
def infoRequest : PDict :=
  [("type", PAtom.astr "info")]

/-- `ModelClient.predict(image)`: send the pickled predict request, wait
for the reply under the bound (`zmq.Again` becomes the timeout
`RuntimeError`), unpickle, check `response["status"]`, raise the server
error with `response.get("message", "Unknown error")` on a non-ok
status, and return `response["pred"]`. -/
def ModelClient.predict (c : ModelClient) (image : NpImage) (w : RecvOutcome) :
    Except ClientError PAtom × ModelClient :=
  match sockSend c.sock (dumps (predictRequest image)) with
  | .error e => (.error e, c)
  | .ok s1 =>
    match sockRecv s1 w with
    | (.again, s2) => (.error (.timeout c.timeout_ms), { c with sock := s2 })
    | (.fsmError, s2) => (.error .efsm, { c with sock := s2 })
    | (.closedError, s2) => (.error .closedSocket, { c with sock := s2 })
    | (.data bs, s2) =>
      ((match loads bs with
        | none => .error .malformed
        | some response =>
          match dictGet response "status" with
          | none => .error (.keyError "status")
          | some st =>
            if st ≠ PAtom.astr "ok" then
              .error (.server (dictGetD response "message" (PAtom.astr "Unknown error")))
            else
              match dictGet response "pred" with
              | none => .error (.keyError "pred")
              | some pred => .ok pred),
        { c with sock := s2 })

/-- `ModelClient.reset()`: same exchange with `{"type": "reset"}`; on an
ok status it only prints an acknowledgment and returns `None`. -/
def ModelClient.reset (c : ModelClient) (w : RecvOutcome) :
    Except ClientError Unit × ModelClient :=
  match sockSend c.sock (dumps resetRequest) with
  | .error e => (.error e, c)
  | .ok s1 =>
    match sockRecv s1 w with
    | (.again, s2) => (.error (.timeout c.timeout_ms), { c with sock := s2 })
    | (.fsmError, s2) => (.error .efsm, { c with sock := s2 })
    | (.closedError, s2) => (.error .closedSocket, { c with sock := s2 })
    | (.data bs, s2) =>
      ((match loads bs with
        | none => .error .malformed
        | some response =>
          match dictGet response "status" with
          | none => .error (.keyError "status")
          | some st =>
            if st ≠ PAtom.astr "ok" then
              .error (.server (dictGetD response "message" (PAtom.astr "Unknown error")))
            else
              .ok ()),
        { c with sock := s2 })

/-- `ModelClient.info()`: same exchange with `{"type": "info"}`; returns
`response["info"]`. -/
def ModelClient.info (c : ModelClient) (w : RecvOutcome) :
    Except ClientError PAtom × ModelClient :=
  match sockSend c.sock (dumps infoRequest) with
  | .error e => (.error e, c)
  | .ok s1 =>
    match sockRecv s1 w with
    | (.again, s2) => (.error (.timeout c.timeout_ms), { c with sock := s2 })
    | (.fsmError, s2) => (.error .efsm, { c with sock := s2 })
    | (.closedError, s2) => (.error .closedSocket, { c with sock := s2 })
    | (.data bs, s2) =>
      ((match loads bs with
        | none => .error .malformed
        | some response =>
          match dictGet response "status" with
          | none => .error (.keyError "status")
          | some st =>
            if st ≠ PAtom.astr "ok" then
              .error (.server (dictGetD response "message" (PAtom.astr "Unknown error")))
            else
              match dictGet response "info" with
              | none => .error (.keyError "info")
              | some inf => .ok inf),
        { c with sock := s2 })

/-- `ModelClient.close()`: closes the socket and terminates the context. -/
def ModelClient.close (c : ModelClient) : ModelClient :=
  { c with sock := .closed }

/-- `ModelClient.__enter__`: returns `self`. -/
def ModelClient.enterCtx (c : ModelClient) : ModelClient := c

/-- `ModelClient.__exit__(exc_type, exc_val, exc_tb)`: calls
`self.close()`, ignoring the exception information. -/
def ModelClient.exitCtx (c : ModelClient)
    (_exc_type _exc_val _exc_tb : Option String) : ModelClient :=
  c.close

/-- Outcome of the body of a `with` block: a normal value or a raised
exception. -/
inductive BodyOutcome (A : Type) where
  | normal (a : A)
  | raised (excType excMsg : String)

/-- Modelled from the spec: scoped acquisition (`with ModelClient(...) as
client:`).  Python's `with` statement calls `__enter__` on entry and
`__exit__` on every exit path — with `(None, None, None)` on normal
completion and with the exception triple when the body raises. -/
def withClient {A : Type} (c : ModelClient)
    (body : ModelClient → BodyOutcome A × ModelClient) :
    BodyOutcome A × ModelClient :=
  let p := body c.enterCtx
  match p.1 with
  | .normal a => (.normal a, p.2.exitCtx none none none)
  | .raised t m => (.raised t m, p.2.exitCtx (some t) (some m) (some "traceback"))

/-! ### Concrete fixtures used by witnesses and counterexamples -/

/-- A 1×1 all-zero RGB image. -/
def testImg : NpImage := ⟨1, 1, [0, 0, 0]⟩

/-- A well-formed ok reply for `predict` with an opaque `pred` payload. -/
def okPredictReply : PDict :=
  [("status", PAtom.astr "ok"), ("pred", PAtom.ablob 0)]

/-- An error reply carrying a message. -/
def badFrameReply : PDict :=
  [("status", PAtom.astr "error"), ("message", PAtom.astr "bad frame")]

/-- An error reply with no `message` field. -/
def errorNoMessageReply : PDict :=
  [("status", PAtom.astr "error")]

/-- A reply that lacks the `status` field. -/
def noStatusReply : PDict :=
  [("message", PAtom.astr "hello")]

/-- An ok reply lacking the operation payload fields. -/
def okEmptyReply : PDict :=
  [("status", PAtom.astr "ok")]

/-- Bytes that do not deserialize: a lone continuation byte. -/
def badBytes : List Nat := [255]

/-! ### Round-trip lemmas for the serializer -/

theorem decodeNat_encodeNatAux (fuel : Nat) :
    ∀ n rest, n ≤ fuel →
      decodeNat (encodeNatAux fuel n ++ rest) = some (n, rest) := by
  induction fuel with
  | zero =>
    intro n rest hn
    interval_cases n
    simp [encodeNatAux, decodeNat]
  | succ fuel ih =>
    intro n rest hn
    by_cases h : n < 128
    · simp [encodeNatAux, h, decodeNat]
    · have hdiv : n / 128 ≤ fuel := by
        have : n / 128 < n := Nat.div_lt_self (by omega) (by omega)
        omega
      simp only [encodeNatAux, h, if_false, List.cons_append]
      simp only [decodeNat]
      have hb : ¬ (n % 128 + 128 < 128) := by omega
      rw [if_neg hb, ih (n / 128) rest hdiv]
      have hmd : n % 128 + 128 * (n / 128) = n := Nat.mod_add_div n 128
      simp [hmd]

theorem decodeNat_encodeNat (n : Nat) (rest : List Nat) :
    decodeNat (encodeNat n ++ rest) = some (n, rest) :=
  decodeNat_encodeNatAux n n rest (Nat.le_refl n)

theorem decodeChars_encodeChars (cs : List Char) (rest : List Nat) :
    decodeChars cs.length (encodeChars cs ++ rest) = some (cs, rest) := by
  induction cs generalizing rest with
  | nil => simp [encodeChars, decodeChars]
  | cons c cs ih =>
    simp only [encodeChars, List.length_cons, decodeChars, List.append_assoc,
      decodeNat_encodeNat, ih, Char.ofNat_toNat]

theorem decodeString_encodeString (s : String) (rest : List Nat) :
    decodeString (encodeString s ++ rest) = some (s, rest) := by
  obtain ⟨cs⟩ := s
  simp only [decodeString, encodeString, List.append_assoc, decodeNat_encodeNat,
    decodeChars_encodeChars]

theorem decodePixels_encodePixels (ps : List Nat) (rest : List Nat) :
    decodePixels ps.length (encodePixels ps ++ rest) = some (ps, rest) := by
  induction ps generalizing rest with
  | nil => simp [encodePixels, decodePixels]
  | cons p ps ih =>
    simp only [encodePixels, List.length_cons, decodePixels, List.append_assoc,
      decodeNat_encodeNat, ih]

theorem decodeAtom_encodeAtom (v : PAtom) (rest : List Nat) :
    decodeAtom (encodeAtom v ++ rest) = some (v, rest) := by
  cases v with
  | astr s => simp only [encodeAtom, List.cons_append, decodeAtom,
      decodeString_encodeString]
  | aimage img =>
    obtain ⟨h, w, ps⟩ := img
    simp only [encodeAtom, List.cons_append, decodeAtom, List.append_assoc,
      decodeNat_encodeNat, decodePixels_encodePixels]
  | ablob n => simp only [encodeAtom, List.cons_append, decodeAtom,
      decodeNat_encodeNat]

theorem decodeEntries_encodeEntries (d : PDict) (rest : List Nat) :
    decodeEntries d.length (encodeEntries d ++ rest) = some (d, rest) := by
  induction d generalizing rest with
  | nil => simp [encodeEntries, decodeEntries]
  | cons kv d ih =>
    obtain ⟨k, v⟩ := kv
    simp only [encodeEntries, List.length_cons, decodeEntries, List.append_assoc,
      decodeString_encodeString, decodeAtom_encodeAtom, ih]

/-- Serialization round-trip: deserializing a serialized dict gives the
dict back. -/
theorem loads_dumps (d : PDict) : loads (dumps d) = some d := by
  have h := decodeEntries_encodeEntries d []
  simp only [List.append_nil] at h
  simp only [loads, dumps, decodeNat_encodeNat, h]

/-! ### Frame lemmas: no operation touches the configuration fields -/

theorem predict_preserves_config (c : ModelClient) (img : NpImage) (w : RecvOutcome) :
    (c.predict img w).2.host = c.host ∧ (c.predict img w).2.port = c.port ∧
    (c.predict img w).2.timeout_ms = c.timeout_ms ∧
    (c.predict img w).2.endpoint = c.endpoint := by
  unfold ModelClient.predict
  rcases hs : sockSend c.sock (dumps (predictRequest img)) with e | s1
  · simp
  · rcases hr : sockRecv s1 w with ⟨rr, s2⟩
    simp only [hr]
    cases rr <;> simp

theorem reset_preserves_config (c : ModelClient) (w : RecvOutcome) :
    (c.reset w).2.host = c.host ∧ (c.reset w).2.port = c.port ∧
    (c.reset w).2.timeout_ms = c.timeout_ms ∧
    (c.reset w).2.endpoint = c.endpoint := by
  unfold ModelClient.reset
  rcases hs : sockSend c.sock (dumps resetRequest) with e | s1
  · simp
  · rcases hr : sockRecv s1 w with ⟨rr, s2⟩
    simp only [hr]
    cases rr <;> simp

theorem info_preserves_config (c : ModelClient) (w : RecvOutcome) :
    (c.info w).2.host = c.host ∧ (c.info w).2.port = c.port ∧
    (c.info w).2.timeout_ms = c.timeout_ms ∧
    (c.info w).2.endpoint = c.endpoint := by
  unfold ModelClient.info
  rcases hs : sockSend c.sock (dumps infoRequest) with e | s1
  · simp
  · rcases hr : sockRecv s1 w with ⟨rr, s2⟩
    simp only [hr]
    cases rr <;> simp

/-! ### Claims -/

/-- Claim C1: for every operation (predict, reset, info), if the
deserialized response has a status different from "ok" and carries a
`message` field, the operation fails with the server error carrying the
server-supplied message verbatim. -/
theorem C1_server_message_verbatim (c : ModelClient) (img : NpImage)
    (resp : PDict) (st m : PAtom)
    (hsock : c.sock = SocketState.readyToSend)
    (hst : dictGet resp "status" = some st)
    (hne : st ≠ PAtom.astr "ok")
    (hm : dictGet resp "message" = some m) :
    (c.predict img (.reply (dumps resp))).1 = .error (.server m) ∧
    (c.reset (.reply (dumps resp))).1 = .error (.server m) ∧
    (c.info (.reply (dumps resp))).1 = .error (.server m) := by
  refine ⟨?_, ?_, ?_⟩ <;>
  · simp only [ModelClient.predict, ModelClient.reset, ModelClient.info, hsock,
      sockSend, sockRecv, loads_dumps, hst]
    simp [hne, dictGetD, hm]

/-- Claim C1, witness: the "bad frame" scenario of the spec, on a fresh
client. -/
theorem C1_witness :
    ((ModelClient.init "localhost" 5555).sock = SocketState.readyToSend ∧
      dictGet badFrameReply "status" = some (PAtom.astr "error") ∧
      PAtom.astr "error" ≠ PAtom.astr "ok" ∧
      dictGet badFrameReply "message" = some (PAtom.astr "bad frame")) ∧
    (((ModelClient.init "localhost" 5555).predict testImg
        (.reply (dumps badFrameReply))).1
      = .error (.server (PAtom.astr "bad frame")) ∧
     ((ModelClient.init "localhost" 5555).reset (.reply (dumps badFrameReply))).1
      = .error (.server (PAtom.astr "bad frame")) ∧
     ((ModelClient.init "localhost" 5555).info (.reply (dumps badFrameReply))).1
      = .error (.server (PAtom.astr "bad frame"))) :=
  ⟨⟨rfl, rfl, by decide, rfl⟩,
    C1_server_message_verbatim (ModelClient.init "localhost" 5555) testImg
      badFrameReply (PAtom.astr "error") (PAtom.astr "bad frame")
      rfl rfl (by decide) rfl⟩

/-- Claim C2: for every operation, if the deserialized response has a
status different from "ok" and no `message` field, the operation fails
with the default message "Unknown error". -/
theorem C2_default_unknown_error (c : ModelClient) (img : NpImage)
    (resp : PDict) (st : PAtom)
    (hsock : c.sock = SocketState.readyToSend)
    (hst : dictGet resp "status" = some st)
    (hne : st ≠ PAtom.astr "ok")
    (hm : dictGet resp "message" = none) :
    (c.predict img (.reply (dumps resp))).1
      = .error (.server (PAtom.astr "Unknown error")) ∧
    (c.reset (.reply (dumps resp))).1
      = .error (.server (PAtom.astr "Unknown error")) ∧
    (c.info (.reply (dumps resp))).1
      = .error (.server (PAtom.astr "Unknown error")) := by
  refine ⟨?_, ?_, ?_⟩ <;>
  · simp only [ModelClient.predict, ModelClient.reset, ModelClient.info, hsock,
      sockSend, sockRecv, loads_dumps, hst]
    simp [hne, dictGetD, hm]

/-- Claim C2, witness: an error reply without a message field, on a
fresh client. -/
theorem C2_witness :
    ((ModelClient.init "localhost" 5555).sock = SocketState.readyToSend ∧
      dictGet errorNoMessageReply "status" = some (PAtom.astr "error") ∧
      PAtom.astr "error" ≠ PAtom.astr "ok" ∧
      dictGet errorNoMessageReply "message" = none) ∧
    (((ModelClient.init "localhost" 5555).predict testImg
        (.reply (dumps errorNoMessageReply))).1
      = .error (.server (PAtom.astr "Unknown error")) ∧
     ((ModelClient.init "localhost" 5555).reset
        (.reply (dumps errorNoMessageReply))).1
      = .error (.server (PAtom.astr "Unknown error")) ∧
     ((ModelClient.init "localhost" 5555).info
        (.reply (dumps errorNoMessageReply))).1
      = .error (.server (PAtom.astr "Unknown error"))) :=
  ⟨⟨rfl, rfl, by decide, rfl⟩,
    C2_default_unknown_error (ModelClient.init "localhost" 5555) testImg
      errorNoMessageReply (PAtom.astr "error") rfl rfl (by decide) rfl⟩

/-- Claim C3: when no reply arrives within the bound, every operation
fails with the timeout error carrying the configured duration, and the
raised message hints that the serving process may not be running. -/
theorem C3_timeout_reports_bound (c : ModelClient) (img : NpImage)
    (hsock : c.sock = SocketState.readyToSend) :
    (c.predict img RecvOutcome.timedOut).1 = .error (.timeout c.timeout_ms) ∧
    (c.reset RecvOutcome.timedOut).1 = .error (.timeout c.timeout_ms) ∧
    (c.info RecvOutcome.timedOut).1 = .error (.timeout c.timeout_ms) ∧
    ∃ pre, timeoutMessage c.timeout_ms = pre ++ "Is 'scripts/serve.py' running?" := by
  refine ⟨?_, ?_, ?_, ?_⟩
  · simp [ModelClient.predict, hsock, sockSend, sockRecv]
  · simp [ModelClient.reset, hsock, sockSend, sockRecv]
  · simp [ModelClient.info, hsock, sockSend, sockRecv]
  · refine ⟨"Connection to model server timed out after " ++
      pySecondsStr c.timeout_ms ++ "s. ", ?_⟩
    unfold timeoutMessage
    simp only [String.append_assoc]
    rfl

/-- Claim C3, witness: a fresh client (bound 30000 ms) timing out on all
three operations. -/
theorem C3_witness :
    (ModelClient.init "localhost" 5555).sock = SocketState.readyToSend ∧
    (((ModelClient.init "localhost" 5555).predict testImg RecvOutcome.timedOut).1
        = .error (.timeout (ModelClient.init "localhost" 5555).timeout_ms) ∧
      ((ModelClient.init "localhost" 5555).reset RecvOutcome.timedOut).1
        = .error (.timeout (ModelClient.init "localhost" 5555).timeout_ms) ∧
      ((ModelClient.init "localhost" 5555).info RecvOutcome.timedOut).1
        = .error (.timeout (ModelClient.init "localhost" 5555).timeout_ms) ∧
      ∃ pre, timeoutMessage (ModelClient.init "localhost" 5555).timeout_ms
        = pre ++ "Is 'scripts/serve.py' running?") :=
  ⟨rfl, C3_timeout_reports_bound (ModelClient.init "localhost" 5555) testImg rfl⟩

/-- Claim C4: when the reply bytes do not deserialize, every operation
fails with the malformed-response error, which is a different error from
the timeout and server-error cases. -/
theorem C4_malformed_reply (c : ModelClient) (img : NpImage) (bs : List Nat)
    (hsock : c.sock = SocketState.readyToSend)
    (hbad : loads bs = none) :
    (c.predict img (.reply bs)).1 = .error .malformed ∧
    (c.reset (.reply bs)).1 = .error .malformed ∧
    (c.info (.reply bs)).1 = .error .malformed ∧
    (∀ ms, ClientError.malformed ≠ ClientError.timeout ms) ∧
    (∀ m, ClientError.malformed ≠ ClientError.server m) := by
  refine ⟨?_, ?_, ?_, ?_, ?_⟩
  · simp [ModelClient.predict, hsock, sockSend, sockRecv, hbad]
  · simp [ModelClient.reset, hsock, sockSend, sockRecv, hbad]
  · simp [ModelClient.info, hsock, sockSend, sockRecv, hbad]
  · intro ms; simp
  · intro m; simp

/-- Claim C4, witness: a lone continuation byte does not deserialize and
yields the malformed-response error on a fresh client. -/
theorem C4_witness :
    ((ModelClient.init "localhost" 5555).sock = SocketState.readyToSend ∧
      loads badBytes = none) ∧
    (((ModelClient.init "localhost" 5555).predict testImg (.reply badBytes)).1
        = .error .malformed ∧
      ((ModelClient.init "localhost" 5555).reset (.reply badBytes)).1
        = .error .malformed ∧
      ((ModelClient.init "localhost" 5555).info (.reply badBytes)).1
        = .error .malformed ∧
      (∀ ms, ClientError.malformed ≠ ClientError.timeout ms) ∧
      (∀ m, ClientError.malformed ≠ ClientError.server m)) :=
  ⟨⟨rfl, rfl⟩,
    C4_malformed_reply (ModelClient.init "localhost" 5555) testImg badBytes rfl rfl⟩

/-- Claim C5, counterexample: the receive timeout is not supplied at
construction time — no choice of constructor arguments yields a client
whose receive bound is 15000 ms; `__init__` accepts only `host` and
`port` and fixes the bound. -/
theorem C5_counterexample :
    ¬ ∃ (h : String) (p : Nat), (ModelClient.init h p).timeout_ms = 15000 := by
  rintro ⟨h, p, hc⟩
  simp [ModelClient.init] at hc

/-- Claim C5, amended: the constructor accepts `host` (default
"localhost") and `port` (default 5555), connects the channel to
`tcp://host:port`, and the receive timeout is fixed at 30000 ms at
construction time and is not reconfigurable at runtime (no operation
changes it). -/
theorem C5_amended_construction (h : String) (p : Nat) :
    (ModelClient.init defaultHost defaultPort).host = "localhost" ∧
    (ModelClient.init defaultHost defaultPort).port = 5555 ∧
    (ModelClient.init h p).host = h ∧
    (ModelClient.init h p).port = p ∧
    (ModelClient.init h p).endpoint = "tcp://" ++ h ++ ":" ++ toString p ∧
    (ModelClient.init h p).timeout_ms = 30000 ∧
    (∀ img w, ((ModelClient.init h p).predict img w).2.timeout_ms = 30000) ∧
    (∀ w, ((ModelClient.init h p).reset w).2.timeout_ms = 30000) ∧
    (∀ w, ((ModelClient.init h p).info w).2.timeout_ms = 30000) := by
  refine ⟨rfl, rfl, rfl, rfl, rfl, rfl, ?_, ?_, ?_⟩
  · intro img w
    exact (predict_preserves_config (ModelClient.init h p) img w).2.2.1
  · intro w
    exact (reset_preserves_config (ModelClient.init h p) w).2.2.1
  · intro w
    exact (info_preserves_config (ModelClient.init h p) w).2.2.1

/-- Claim C6, counterexample: after a timeout, the connection is not
usable for the next call — a second `predict` fails with the strict-
alternation invalid-use error even though a well-formed ok reply is
then available, because the abandoned exchange was never cleared. -/
theorem C6_counterexample :
    (((ModelClient.init "localhost" 5555).predict testImg RecvOutcome.timedOut).2.predict
        testImg (RecvOutcome.reply (dumps okPredictReply))).1
      = Except.error ClientError.efsm := rfl

/-- Claim C6, amended: a timeout leaves the configuration fields
unchanged and the connection unclosed, but the outstanding exchange is
not abandoned or cleared: the socket remains awaiting the reply, so
every subsequent predict/reset/info fails with the strict-alternation
invalid-use error instead of performing a new exchange. -/
theorem C6_amended_timeout_leaves_socket_stuck (c : ModelClient) (img : NpImage)
    (hsock : c.sock = SocketState.readyToSend) :
    (c.predict img RecvOutcome.timedOut).2.host = c.host ∧
    (c.predict img RecvOutcome.timedOut).2.port = c.port ∧
    (c.predict img RecvOutcome.timedOut).2.timeout_ms = c.timeout_ms ∧
    (c.predict img RecvOutcome.timedOut).2.sock = SocketState.awaitingReply ∧
    (∀ img2 w, ((c.predict img RecvOutcome.timedOut).2.predict img2 w).1
        = Except.error ClientError.efsm) ∧
    (∀ w, ((c.predict img RecvOutcome.timedOut).2.reset w).1
        = Except.error ClientError.efsm) ∧
    (∀ w, ((c.predict img RecvOutcome.timedOut).2.info w).1
        = Except.error ClientError.efsm) := by
  have hstep : (c.predict img RecvOutcome.timedOut).2
      = { c with sock := SocketState.awaitingReply } := by
    simp [ModelClient.predict, hsock, sockSend, sockRecv]
  refine ⟨?_, ?_, ?_, ?_, ?_, ?_, ?_⟩
  · rw [hstep]
  · rw [hstep]
  · rw [hstep]
  · rw [hstep]
  · intro img2 w
    rw [hstep]
    simp [ModelClient.predict, sockSend]
  · intro w
    rw [hstep]
    simp [ModelClient.reset, sockSend]
  · intro w
    rw [hstep]
    simp [ModelClient.info, sockSend]

/-- Claim C6 amended, witness: a fresh client, a 1×1 image, and a
well-formed ok reply offered to the second call. -/
theorem C6_amended_witness :
    (ModelClient.init "localhost" 5555).sock = SocketState.readyToSend ∧
    (((ModelClient.init "localhost" 5555).predict testImg RecvOutcome.timedOut).2.host
        = (ModelClient.init "localhost" 5555).host ∧
      ((ModelClient.init "localhost" 5555).predict testImg RecvOutcome.timedOut).2.port
        = (ModelClient.init "localhost" 5555).port ∧
      ((ModelClient.init "localhost" 5555).predict testImg RecvOutcome.timedOut).2.timeout_ms
        = (ModelClient.init "localhost" 5555).timeout_ms ∧
      ((ModelClient.init "localhost" 5555).predict testImg RecvOutcome.timedOut).2.sock
        = SocketState.awaitingReply ∧
      (∀ img2 w,
        (((ModelClient.init "localhost" 5555).predict testImg
            RecvOutcome.timedOut).2.predict img2 w).1
          = Except.error ClientError.efsm) ∧
      (∀ w,
        (((ModelClient.init "localhost" 5555).predict testImg
            RecvOutcome.timedOut).2.reset w).1
          = Except.error ClientError.efsm) ∧
      (∀ w,
        (((ModelClient.init "localhost" 5555).predict testImg
            RecvOutcome.timedOut).2.info w).1
          = Except.error ClientError.efsm)) :=
  ⟨rfl, C6_amended_timeout_leaves_socket_stuck
    (ModelClient.init "localhost" 5555) testImg rfl⟩

/-- Claim C7: for every valid H×W×3 image, the predict request built
from it, serialized and deserialized, reproduces the request — and in
particular the original image array, exactly. -/
theorem C7_predict_request_roundtrip (img : NpImage) (hwf : img.wellFormed) :
    loads (dumps (predictRequest img)) = some (predictRequest img) ∧
    dictGet (predictRequest img) "image" = some (PAtom.aimage img) :=
  ⟨loads_dumps (predictRequest img), rfl⟩

/-- Claim C7, witness: the 1×1 all-zero image is well formed and its
predict request round-trips. -/
theorem C7_witness :
    testImg.wellFormed ∧
    (loads (dumps (predictRequest testImg)) = some (predictRequest testImg) ∧
      dictGet (predictRequest testImg) "image" = some (PAtom.aimage testImg)) :=
  ⟨by decide, C7_predict_request_roundtrip testImg (by decide)⟩

/-- Claim C8: used as a managed resource, the scope-exit handler calls
`close` unconditionally — on the normal path and on the exception path
alike — so the socket is closed on every exit of `withClient`. -/
theorem C8_close_on_every_exit_path {A : Type} (c : ModelClient)
    (body : ModelClient → BodyOutcome A × ModelClient) (t v tb : Option String) :
    (withClient c body).2 = (body c.enterCtx).2.close ∧
    (withClient c body).2.sock = SocketState.closed ∧
    ModelClient.exitCtx c t v tb = c.close := by
  have h1 : (withClient c body).2 = (body c.enterCtx).2.close := by
    unfold withClient
    rcases hb : body c.enterCtx with ⟨r, c1⟩
    cases r <;> simp [hb, ModelClient.exitCtx]
  exact ⟨h1, by rw [h1]; rfl, rfl⟩

/-- Claim C9: every operation leaves the connection's configuration
fields (host, port, timeout) unchanged, for every input and every wire
outcome, including error replies and timeouts. -/
theorem C9_ops_preserve_config (c : ModelClient) (img : NpImage) (w : RecvOutcome) :
    ((c.predict img w).2.host = c.host ∧ (c.predict img w).2.port = c.port ∧
      (c.predict img w).2.timeout_ms = c.timeout_ms) ∧
    ((c.reset w).2.host = c.host ∧ (c.reset w).2.port = c.port ∧
      (c.reset w).2.timeout_ms = c.timeout_ms) ∧
    ((c.info w).2.host = c.host ∧ (c.info w).2.port = c.port ∧
      (c.info w).2.timeout_ms = c.timeout_ms) := by
  obtain ⟨h1, h2, h3, -⟩ := predict_preserves_config c img w
  obtain ⟨h4, h5, h6, -⟩ := reset_preserves_config c w
  obtain ⟨h7, h8, h9, -⟩ := info_preserves_config c w
  exact ⟨⟨h1, h2, h3⟩, ⟨h4, h5, h6⟩, ⟨h7, h8, h9⟩⟩

/-- Claim C10: a reply lacking `status`, or an ok reply lacking the
operation's payload field, raises a key-lookup error — not the timeout,
server, or malformed-response error; these subscripts are unguarded. -/
theorem C10_unguarded_lookups (c : ModelClient) (img : NpImage) (r1 r2 : PDict)
    (hsock : c.sock = SocketState.readyToSend)
    (h1 : dictGet r1 "status" = none)
    (h2 : dictGet r2 "status" = some (PAtom.astr "ok"))
    (h3 : dictGet r2 "pred" = none)
    (h4 : dictGet r2 "info" = none) :
    (c.predict img (.reply (dumps r1))).1 = .error (.keyError "status") ∧
    (c.reset (.reply (dumps r1))).1 = .error (.keyError "status") ∧
    (c.info (.reply (dumps r1))).1 = .error (.keyError "status") ∧
    (c.predict img (.reply (dumps r2))).1 = .error (.keyError "pred") ∧
    (c.info (.reply (dumps r2))).1 = .error (.keyError "info") ∧
    (∀ k ms m, ClientError.keyError k ≠ ClientError.timeout ms ∧
      ClientError.keyError k ≠ ClientError.server m ∧
      ClientError.keyError k ≠ ClientError.malformed) := by
  refine ⟨?_, ?_, ?_, ?_, ?_, ?_⟩
  · simp [ModelClient.predict, hsock, sockSend, sockRecv, loads_dumps, h1]
  · simp [ModelClient.reset, hsock, sockSend, sockRecv, loads_dumps, h1]
  · simp [ModelClient.info, hsock, sockSend, sockRecv, loads_dumps, h1]
  · simp [ModelClient.predict, hsock, sockSend, sockRecv, loads_dumps, h2, h3]
  · simp [ModelClient.info, hsock, sockSend, sockRecv, loads_dumps, h2, h4]
  · intro k ms m
    refine ⟨by simp, by simp, by simp⟩

/-- Claim C10, witness: a message-only reply and a bare ok reply, on a
fresh client. -/
theorem C10_witness :
    ((ModelClient.init "localhost" 5555).sock = SocketState.readyToSend ∧
      dictGet noStatusReply "status" = none ∧
      dictGet okEmptyReply "status" = some (PAtom.astr "ok") ∧
      dictGet okEmptyReply "pred" = none ∧
      dictGet okEmptyReply "info" = none) ∧
    (((ModelClient.init "localhost" 5555).predict testImg
        (.reply (dumps noStatusReply))).1 = .error (.keyError "status") ∧
      ((ModelClient.init "localhost" 5555).reset
        (.reply (dumps noStatusReply))).1 = .error (.keyError "status") ∧
      ((ModelClient.init "localhost" 5555).info
        (.reply (dumps noStatusReply))).1 = .error (.keyError "status") ∧
      ((ModelClient.init "localhost" 5555).predict testImg
        (.reply (dumps okEmptyReply))).1 = .error (.keyError "pred") ∧
      ((ModelClient.init "localhost" 5555).info
        (.reply (dumps okEmptyReply))).1 = .error (.keyError "info") ∧
      (∀ k ms m, ClientError.keyError k ≠ ClientError.timeout ms ∧
        ClientError.keyError k ≠ ClientError.server m ∧
        ClientError.keyError k ≠ ClientError.malformed)) :=
  ⟨⟨rfl, rfl, rfl, rfl, rfl⟩,
    C10_unguarded_lookups (ModelClient.init "localhost" 5555) testImg
      noStatusReply okEmptyReply rfl rfl rfl rfl rfl⟩
